import Mathlib

/-!
Formal model of the ironman template lifecycle orchestrator and of the
base source manager, as a shallow embedding of the Go sources.

Each collaborator of the orchestrator (source manager, model reader,
metadata index, filesystem, generation walk) is modelled as a record of
pure functions standing for the results its calls return; every
orchestrator operation is a Lean function from those records to a pair
of its Go return value (errors as an explicit error type) and the list
of collaborator calls it performed, in order.  The list of calls makes
the side-effect ordering of the Go code (rollbacks, filesystem removal
before index deletion, conflict checks before writes) a provable
property of the definitions.
-/

namespace IronmanProof

/-- Model of a Go error value as produced by the pkg errors library:
either a fresh message or a message wrapping a cause. -/
inductive GoErr where
  | msg (s : String)
  | wrap (s : String) (cause : GoErr)
deriving DecidableEq

/-- Rendering of an error to a string, as the Go verb s formats a
wrapped pkg errors value: message, colon, cause. -/
def GoErr.str : GoErr → String
  | .msg s => s
  | .wrap s cause => s ++ ": " ++ cause.str

/-- True when the second error occurs as a subterm of the first, that
is, when the first error message chain mentions the second. -/
def GoErr.containsErr : GoErr → GoErr → Bool
  | .msg s, t => decide (GoErr.msg s = t)
  | .wrap s cause, t => decide (GoErr.wrap s cause = t) || cause.containsErr t

/-- A single-quote character, kept out of string literals. -/
def squote : String := String.singleton (Char.ofNat 39)

/-- Result of an os Stat call: success, a does-not-exist error, or any
other error. -/
inductive StatRes where
  | found
  | notExist (e : GoErr)
  | otherErr (e : GoErr)
deriving DecidableEq

/-- model.SourceType of a template. -/
inductive SourceType where
  | url
  | link
deriving DecidableEq

/-- model.GeneratorType: a generator produces a single file or a
directory tree. -/
inductive GeneratorType where
  | file
  | directory
deriving DecidableEq

/-- model.FileTypeOptions of a generator. -/
structure FileTypeOptions where
  fileGenerationRelativePath : String
deriving DecidableEq

/-- model.Generator: one named generator of a template. -/
structure Generator where
  id : String
  ttype : GeneratorType
  directoryName : String
  fileTypeOptions : FileTypeOptions
deriving DecidableEq

/-- model.Template: the indexed metadata of a template. -/
structure Template where
  id : String
  sourceType : SourceType
  directoryName : String
  generators : List Generator
deriving DecidableEq

/-- Modelled from the spec: the model package with the Generator lookup
method is not among the sources; per the spec, lookup of a generator by
ID inside a template is deterministic, no two generators of a template
share an ID. -/
def Template.generator (t : Template) (generatorID : String) : Option Generator :=
  t.generators.find? (fun g => g.id == generatorID)

/-- The triple a validator returns in Go: a validity flag, a validation
payload to be rendered for the user, and an operational error. -/
structure ValidateResult where
  valid : Bool
  payload : String
  err : Option GoErr
deriving DecidableEq

/-- validator.Validator interface. -/
structure Validator where
  Validate : Template → ValidateResult

namespace manager

/-- An effect performed by a base manager operation on the filesystem. -/
inductive MAction where
  | removeAll (p : String)
  | stat (p : String)
  | abs (p : String)
  | symlink (oldname newname : String)
  | remove (p : String)
deriving DecidableEq

/-- Oracle for the os and filepath calls the base manager performs;
pathJoin stands for filepath.Join on the given components. -/
structure MFs where
  pathJoin : List String → String
  removeAll : String → Except GoErr Unit
  stat : String → StatRes
  abs : String → Except GoErr String
  symlink : String → String → Except GoErr Unit
  remove : String → Except GoErr Unit

/-- Outcome of a base manager call that may panic in Go. -/
inductive MgrOutcome where
  | ok
  | err (e : GoErr)
  | panicked (msg : String)
deriving DecidableEq

/-- managerTemplatesDirectory constant. -/
def managerTemplatesDirectory : String := "templates"

/-- manager.BaseManager state. -/
structure BaseManager where
  path : String
  templatesPath : String

/-- manager.NewBaseManager. -/
def NewBaseManager (fs : MFs) (path : String) : BaseManager :=
  { path := path, templatesPath := fs.pathJoin [path, managerTemplatesDirectory] }

/-- manager.validateTemplateID: rejects the empty template ID. -/
def validateTemplateID (templateID : String) : Except GoErr Unit :=
  if templateID = "" then Except.error (GoErr.msg "a templateID cannot be empty")
  else Except.ok ()

/-- BaseManager.TemplatePath: join of the manager root, the templates
directory and the template ID. -/
def BaseManager.TemplatePath (b : BaseManager) (fs : MFs) (templateID : String) : String :=
  fs.pathJoin [b.path, managerTemplatesDirectory, templateID]

/-- BaseManager.Uninstall: validate the ID, then remove the template
directory recursively. -/
def BaseManager.Uninstall (b : BaseManager) (fs : MFs) (templateID : String) :
    Except GoErr Unit × List MAction :=
  match validateTemplateID templateID with
  | .error e => (.error e, [])
  | .ok _ =>
    let templatePath := b.TemplatePath fs templateID
    match fs.removeAll templatePath with
    | .error e =>
      (.error (GoErr.wrap ("Failed to remove template " ++ templateID) e),
        [MAction.removeAll templatePath])
    | .ok _ => (.ok (), [MAction.removeAll templatePath])

/-- BaseManager.IsInstalled: validate the ID, then stat the template
path; a does-not-exist outcome is false with no error. -/
def BaseManager.IsInstalled (b : BaseManager) (fs : MFs) (templateID : String) :
    Except GoErr Bool × List MAction :=
  match validateTemplateID templateID with
  | .error e => (.error e, [])
  | .ok _ =>
    let templatePath := b.TemplatePath fs templateID
    match fs.stat templatePath with
    | .found => (.ok true, [MAction.stat templatePath])
    | .notExist _ => (.ok false, [MAction.stat templatePath])
    | .otherErr e =>
      (.error (GoErr.wrap ("verifying template installation ID: " ++ templateID) e),
        [MAction.stat templatePath])

/-- BaseManager.Link: validate the ID, require the source path to
exist, resolve it to an absolute path, then create the symlink at the
template path of the given ID. -/
def BaseManager.Link (b : BaseManager) (fs : MFs) (templatePath templateID : String) :
    Except GoErr Unit × List MAction :=
  match validateTemplateID templateID with
  | .error e => (.error e, [])
  | .ok _ =>
    let linkPath := b.TemplatePath fs templateID
    match fs.stat templatePath with
    | .notExist e =>
      (.error (GoErr.wrap
          ("Failed to create symlink to ironman manager path should " ++ templatePath ++ " exists ") e),
        [MAction.stat templatePath])
    | _ =>
      match fs.abs templatePath with
      | .error e =>
        (.error (GoErr.wrap
            ("Failed to create symlink to ironman manager for " ++ templatePath ++ " with ID " ++ templateID) e),
          [MAction.stat templatePath, MAction.abs templatePath])
      | .ok absTemplatePath =>
        match fs.symlink absTemplatePath linkPath with
        | .error e =>
          (.error (GoErr.wrap
              ("Failed to create symlink to ironman manager for " ++ templatePath ++ " with ID " ++ templateID) e),
            [MAction.stat templatePath, MAction.abs templatePath,
              MAction.symlink absTemplatePath linkPath])
        | .ok _ =>
          (.ok (), [MAction.stat templatePath, MAction.abs templatePath,
            MAction.symlink absTemplatePath linkPath])

/-- BaseManager.Unlink: validate the ID, require the link to exist,
then remove the symlink only. -/
def BaseManager.Unlink (b : BaseManager) (fs : MFs) (templateID : String) :
    Except GoErr Unit × List MAction :=
  match validateTemplateID templateID with
  | .error e => (.error e, [])
  | .ok _ =>
    let templatePath := b.TemplatePath fs templateID
    match fs.stat templatePath with
    | .notExist e =>
      (.error (GoErr.wrap ("Failed to remove symlink for template ID " ++ e.str) e),
        [MAction.stat templatePath])
    | _ =>
      match fs.remove templatePath with
      | .error e =>
        (.error (GoErr.wrap ("Failed to remove symlink for template ID " ++ templateID) e),
          [MAction.stat templatePath, MAction.remove templatePath])
      | .ok _ => (.ok (), [MAction.stat templatePath, MAction.remove templatePath])

/-- BaseManager.Find: the Go body is a single unconditional panic with
the message not implemented. -/
def BaseManager.Find (b : BaseManager) (templateID : String) : MgrOutcome :=
  MgrOutcome.panicked "not implemented"

/-- BaseManager.Install: the Go body is a single unconditional panic
with the message not implemented. -/
def BaseManager.Install (b : BaseManager) (templateLocator : String) : MgrOutcome :=
  MgrOutcome.panicked "not implemented"

/-- BaseManager.Update: the Go body is a single unconditional panic
with the message not implemented. -/
def BaseManager.Update (b : BaseManager) (templateID : String) : MgrOutcome :=
  MgrOutcome.panicked "not implemented"

end manager

/-- One collaborator call performed by an orchestrator operation, in
the order the Go code performs them. -/
inductive Action where
  | managerInstall (locator : String)
  | managerUninstall (dir : String)
  | managerLink (path id : String)
  | managerUnlink (id : String)
  | managerUpdate (dir : String)
  | modelRead (path : String)
  | indexExists (id : String)
  | indexFind (id : String)
  | indexInsert (t : Template)
  | indexUpdate (t : Template)
  | indexDelete (id : String)
  | stat (path : String)
  | mkdir (path : String)
  | readDir (path : String)
  | generatorWrite (src dst : String)
deriving DecidableEq

/-- True for the calls that mutate the filesystem. -/
def Action.isFsMutation : Action → Bool
  | .managerInstall _ => true
  | .managerUninstall _ => true
  | .managerLink _ _ => true
  | .managerUnlink _ => true
  | .managerUpdate _ => true
  | .mkdir _ => true
  | .generatorWrite _ _ => true
  | _ => false

/-- True for the calls that mutate the metadata index. -/
def Action.isIndexMutation : Action → Bool
  | .indexInsert _ => true
  | .indexUpdate _ => true
  | .indexDelete _ => true
  | _ => false

/-- True for the call that writes rendered generation output. -/
def Action.writesOutput : Action → Bool
  | .generatorWrite _ _ => true
  | _ => false

/-- manager.Manager interface as the orchestrator consumes it: each
field gives the return value of the corresponding call. -/
structure Manager where
  Install : String → Except GoErr String
  Update : String → Except GoErr Unit
  Uninstall : String → Except GoErr Unit
  Link : String → String → Except GoErr String
  Unlink : String → Except GoErr Unit
  TemplateLocation : String → String

/-- model.Reader interface. -/
structure Reader where
  Read : String → Except GoErr Template

/-- index.Index interface; the field named Index is the insert
operation of the Go interface of the same name. -/
structure Index where
  Exists : String → Except GoErr Bool
  FindTemplateByID : String → Except GoErr Template
  Index : Template → Except GoErr String
  Update : Template → Except GoErr Unit
  Delete : String → Except GoErr String

/-- The Ironman orchestrator: its home directory and its injected
collaborators.  validationTemplExecute stands for the Execute call on
the parsed validation message template. -/
structure Ironman where
  manager : Manager
  modelReader : Reader
  index : Index
  home : String
  validators : List Validator
  validationTemplExecute : String → Except GoErr String

/-- templatesDirectory constant of the ironman package. -/
def templatesDirectory : String := "templates"

/-- generatorsPath constant of the ironman package. -/
def generatorsPath : String := "generators"

/-- The validator loop of Ironman.Install: the first validator whose
call errors aborts with a wrapped error; the first invalid result
aborts with the rendered validation message. -/
def runValidators (ex : String → Except GoErr String) :
    List Validator → Template → Except GoErr Unit
  | [], _ => Except.ok ()
  | v :: rest, templateModel =>
    let r := v.Validate templateModel
    match r.err with
    | some e => Except.error (GoErr.wrap "failed to validate model" e)
    | none =>
      if r.valid then runValidators ex rest templateModel
      else
        match ex r.payload with
        | .error e => Except.error (GoErr.wrap "failed to create validation error message" e)
        | .ok rendered => Except.error (GoErr.msg rendered)

/-- Ironman.Install: materialize via the manager, read the model, run
the validators, set the source type to URL and insert into the index;
the model-read and index-insert failures roll the materialized
directory back via the manager Uninstall, discarding its result. -/
def Ironman.Install (i : Ironman) (templateLocator : String) :
    Except GoErr Unit × List Action :=
  match i.manager.Install templateLocator with
  | .error e => (.error e, [Action.managerInstall templateLocator])
  | .ok templateDirectory =>
    let templatePath := i.manager.TemplateLocation templateDirectory
    match i.modelReader.Read templatePath with
    | .error e =>
      (.error (GoErr.wrap "failed to read template model" e),
        [Action.managerInstall templateLocator, Action.modelRead templatePath,
          Action.managerUninstall templateDirectory])
    | .ok templateModel =>
      match runValidators i.validationTemplExecute i.validators templateModel with
      | .error e =>
        (.error e, [Action.managerInstall templateLocator, Action.modelRead templatePath])
      | .ok _ =>
        let indexed := { templateModel with sourceType := SourceType.url }
        match i.index.Index indexed with
        | .error e =>
          (.error e, [Action.managerInstall templateLocator, Action.modelRead templatePath,
            Action.indexInsert indexed, Action.managerUninstall templateDirectory])
        | .ok _ =>
          (.ok (), [Action.managerInstall templateLocator, Action.modelRead templatePath,
            Action.indexInsert indexed])

/-- Ironman.Link: link via the manager, read the model at the link
path, force the caller ID and the Link source type, insert into the
index; the model-read and index-insert failures roll back via the
manager Unlink, discarding its result. -/
def Ironman.Link (i : Ironman) (templatePath templateID : String) :
    Except GoErr Unit × List Action :=
  match i.manager.Link templatePath templateID with
  | .error e => (.error e, [Action.managerLink templatePath templateID])
  | .ok linkPath =>
    match i.modelReader.Read linkPath with
    | .error e =>
      (.error e, [Action.managerLink templatePath templateID, Action.modelRead linkPath,
        Action.managerUnlink templateID])
    | .ok templateModel =>
      let indexed := { templateModel with id := templateID, sourceType := SourceType.link }
      match i.index.Index indexed with
      | .error e =>
        (.error e, [Action.managerLink templatePath templateID, Action.modelRead linkPath,
          Action.indexInsert indexed, Action.managerUnlink templateID])
      | .ok _ =>
        (.ok (), [Action.managerLink templatePath templateID, Action.modelRead linkPath,
          Action.indexInsert indexed])

/-- Ironman.Uninstall: require the ID to exist in the index, fetch its
model, remove the directory via the manager, then delete the index
entry. -/
def Ironman.Uninstall (i : Ironman) (templateID : String) :
    Except GoErr Unit × List Action :=
  match i.index.Exists templateID with
  | .error e =>
    (.error (GoErr.wrap ("failed to validate if template exists " ++ templateID) e),
      [Action.indexExists templateID])
  | .ok false =>
    (.error (GoErr.msg ("template " ++ templateID ++ " is not installed")),
      [Action.indexExists templateID])
  | .ok true =>
    match i.index.FindTemplateByID templateID with
    | .error e =>
      (.error (GoErr.wrap ("failed to get template model " ++ templateID) e),
        [Action.indexExists templateID, Action.indexFind templateID])
    | .ok templateModel =>
      match i.manager.Uninstall templateModel.directoryName with
      | .error e =>
        (.error e, [Action.indexExists templateID, Action.indexFind templateID,
          Action.managerUninstall templateModel.directoryName])
      | .ok _ =>
        match i.index.Delete templateID with
        | .error e =>
          (.error e, [Action.indexExists templateID, Action.indexFind templateID,
            Action.managerUninstall templateModel.directoryName, Action.indexDelete templateID])
        | .ok _ =>
          (.ok (), [Action.indexExists templateID, Action.indexFind templateID,
            Action.managerUninstall templateModel.directoryName, Action.indexDelete templateID])

/-- Ironman.Unlink: remove the symlink via the manager, then delete the
index entry. -/
def Ironman.Unlink (i : Ironman) (templateID : String) :
    Except GoErr Unit × List Action :=
  match i.manager.Unlink templateID with
  | .error e => (.error e, [Action.managerUnlink templateID])
  | .ok _ =>
    match i.index.Delete templateID with
    | .error e => (.error e, [Action.managerUnlink templateID, Action.indexDelete templateID])
    | .ok _ => (.ok (), [Action.managerUnlink templateID, Action.indexDelete templateID])

/-- Ironman.Update: require the ID to exist in the index, fetch its
model, delegate to the manager Update on the stored directory name. -/
def Ironman.Update (i : Ironman) (templateID : String) :
    Except GoErr Unit × List Action :=
  match i.index.Exists templateID with
  | .error e =>
    (.error (GoErr.wrap ("failed to validate if template exists " ++ templateID) e),
      [Action.indexExists templateID])
  | .ok false =>
    (.error (GoErr.msg ("template " ++ squote ++ templateID ++ squote ++ " is not installed")),
      [Action.indexExists templateID])
  | .ok true =>
    match i.index.FindTemplateByID templateID with
    | .error e =>
      (.error (GoErr.wrap ("failed to get template model " ++ templateID) e),
        [Action.indexExists templateID, Action.indexFind templateID])
    | .ok templateModel =>
      match i.manager.Update templateModel.directoryName with
      | .error e =>
        (.error e, [Action.indexExists templateID, Action.indexFind templateID,
          Action.managerUpdate templateModel.directoryName])
      | .ok _ =>
        (.ok (), [Action.indexExists templateID, Action.indexFind templateID,
          Action.managerUpdate templateModel.directoryName])

/-- Result of an os Mkdir call, classified the way the Go code
classifies it: success, a permission error, an already-exists error, or
any other error. -/
inductive MkdirRes where
  | ok
  | permDenied (e : GoErr)
  | alreadyExists (e : GoErr)
  | otherErr (e : GoErr)
deriving DecidableEq

/-- Caller-supplied generation values, passed through opaquely. -/
abbrev Values := List (String × String)

/-- Oracle for the os and filepath calls of Ironman.Generate, plus the
generation walk of the template generator package (external boundary):
readDirNames stands for the os Open and Readdirnames pair of
isDirEmpty, with an error covering open or read failure, and
generatorGenerate for the rendering walk writing under the target. -/
structure Fs where
  filepathAbs : String → Except GoErr String
  pathDir : String → String
  pathBase : String → String
  pathJoin : List String → String
  stat : String → StatRes
  mkdir : String → MkdirRes
  readDirNames : String → Except GoErr (List String)
  generatorGenerate : String → String → Values → Except GoErr Unit

/-- isDirEmpty: open the directory and read one name; end of file means
empty. -/
def isDirEmpty (fs : Fs) (name : String) : Except GoErr Bool × List Action :=
  match fs.readDirNames name with
  | .error e => (.error e, [Action.readDir name])
  | .ok names => (.ok names.isEmpty, [Action.readDir name])

/-- The lazy metadata refresh at the start of Ironman.Generate: for a
Link-sourced template, re-read the model at the template location,
force the caller ID and the Link source type back, and update the
index entry; any other source type is passed through untouched. -/
def Ironman.linkRefresh (i : Ironman) (templateID : String) (templateModel : Template) :
    Except GoErr Template × List Action :=
  if templateModel.sourceType = SourceType.link then
    let templatePath := i.manager.TemplateLocation templateModel.directoryName
    match i.modelReader.Read templatePath with
    | .error e =>
      (.error (GoErr.wrap ("failed to update metadata for template " ++ templateID) e),
        [Action.modelRead templatePath])
    | .ok fresh =>
      let updated := { fresh with id := templateID, sourceType := SourceType.link }
      match i.index.Update updated with
      | .error e =>
        (.error (GoErr.wrap ("Failed to update metadata for template " ++ templateID) e),
          [Action.modelRead templatePath, Action.indexUpdate updated])
      | .ok _ => (.ok updated, [Action.modelRead templatePath, Action.indexUpdate updated])
  else (.ok templateModel, [])

/-- The final step of Ironman.Generate: build the generator source path
under home, templates, the template directory, generators and the
generator directory, and run the rendering walk. -/
def Ironman.runGenerator (i : Ironman) (fs : Fs) (templateModel : Template) (g : Generator)
    (absGenerationPath : String) (values : Values) : Except GoErr Unit × List Action :=
  let generatorPath := fs.pathJoin
    [i.home, templatesDirectory, templateModel.directoryName, generatorsPath, g.directoryName]
  match fs.generatorGenerate generatorPath absGenerationPath values with
  | .error e => (.error e, [Action.generatorWrite generatorPath absGenerationPath])
  | .ok _ => (.ok (), [Action.generatorWrite generatorPath absGenerationPath])

/-- The File branch of Ironman.Generate: the parent directory of the
target must exist; the effective output file is the join of that
parent, the file generation relative path and the base name of the
target, and when it exists without force the generation fails. -/
def Ironman.generateFile (i : Ironman) (fs : Fs) (generationPath absGenerationPath : String)
    (values : Values) (force : Bool) (templateModel : Template) (g : Generator) :
    Except GoErr Unit × List Action :=
  let baseDir := fs.pathDir absGenerationPath
  match fs.stat baseDir with
  | .notExist _ =>
    (.error (GoErr.msg ("directory " ++ fs.pathDir generationPath ++ " does not exists")),
      [Action.stat baseDir])
  | _ =>
    let fileName := fs.pathBase absGenerationPath
    let filePath := fs.pathJoin [baseDir, g.fileTypeOptions.fileGenerationRelativePath, fileName]
    match fs.stat filePath, force with
    | .found, false =>
      (.error (GoErr.msg ("file already exists " ++ filePath ++ " ")),
        [Action.stat baseDir, Action.stat filePath])
    | _, _ =>
      let w := i.runGenerator fs templateModel g absGenerationPath values
      (w.1, [Action.stat baseDir, Action.stat filePath] ++ w.2)

/-- The Directory branch of Ironman.Generate: attempt to create the
target; a permission error aborts; an already-exists error without
force requires the directory to be empty; every other outcome of the
creation, success or not, proceeds to the rendering walk. -/
def Ironman.generateDirectory (i : Ironman) (fs : Fs) (absGenerationPath : String)
    (values : Values) (force : Bool) (templateModel : Template) (g : Generator) :
    Except GoErr Unit × List Action :=
  match fs.mkdir absGenerationPath with
  | .permDenied e =>
    (.error (GoErr.wrap ("failed to create generation path " ++ absGenerationPath) e),
      [Action.mkdir absGenerationPath])
  | .alreadyExists _ =>
    if !force then
      match isDirEmpty fs absGenerationPath with
      | (.error e, tre) =>
        (.error (GoErr.wrap ("failed to validate if generation path is empty " ++ e.str) e),
          [Action.mkdir absGenerationPath] ++ tre)
      | (.ok empty, tre) =>
        if !empty then
          (.error (GoErr.msg ("Generation path is not empty " ++ absGenerationPath)),
            [Action.mkdir absGenerationPath] ++ tre)
        else
          let w := i.runGenerator fs templateModel g absGenerationPath values
          (w.1, [Action.mkdir absGenerationPath] ++ tre ++ w.2)
    else
      let w := i.runGenerator fs templateModel g absGenerationPath values
      (w.1, [Action.mkdir absGenerationPath] ++ w.2)
  | .ok =>
    let w := i.runGenerator fs templateModel g absGenerationPath values
    (w.1, [Action.mkdir absGenerationPath] ++ w.2)
  | .otherErr _ =>
    let w := i.runGenerator fs templateModel g absGenerationPath values
    (w.1, [Action.mkdir absGenerationPath] ++ w.2)

/-- The part of Ironman.Generate after the index lookup and the link
refresh: resolve the generator by ID, resolve the absolute generation
path, and branch on the generator type. -/
def Ironman.generateTail (i : Ironman) (fs : Fs) (generatorID generationPath : String)
    (values : Values) (force : Bool) (templateModel : Template) :
    Except GoErr Unit × List Action :=
  match templateModel.generator generatorID with
  | none => (.error (GoErr.msg ("generator " ++ generatorID ++ " does not exists")), [])
  | some g =>
    match fs.filepathAbs generationPath with
    | .error e =>
      (.error (GoErr.wrap ("failed to get absolute path for generation path " ++ generationPath) e),
        [])
    | .ok absGenerationPath =>
      if g.ttype = GeneratorType.file then
        i.generateFile fs generationPath absGenerationPath values force templateModel g
      else
        i.generateDirectory fs absGenerationPath values force templateModel g

/-- Ironman.Generate: require the template to exist in the index, fetch
its model, refresh the metadata lazily for a Link-sourced template,
then run the tail with its conflict checks and rendering walk. -/
def Ironman.Generate (i : Ironman) (fs : Fs) (templateID generatorID generationPath : String)
    (values : Values) (force : Bool) : Except GoErr Unit × List Action :=
  match i.index.Exists templateID with
  | .error e =>
    (.error (GoErr.wrap ("failed to validate if template exists " ++ templateID) e),
      [Action.indexExists templateID])
  | .ok false =>
    (.error (GoErr.msg ("template " ++ squote ++ templateID ++ squote ++ " is not installed")),
      [Action.indexExists templateID])
  | .ok true =>
    match i.index.FindTemplateByID templateID with
    | .error e =>
      (.error (GoErr.wrap ("could not find template by ID " ++ templateID) e),
        [Action.indexExists templateID, Action.indexFind templateID])
    | .ok found =>
      match i.linkRefresh templateID found with
      | (.error e, tr) =>
        (.error e, [Action.indexExists templateID, Action.indexFind templateID] ++ tr)
      | (.ok templateModel, tr) =>
        let rest := i.generateTail fs generatorID generationPath values force templateModel
        (rest.1, [Action.indexExists templateID, Action.indexFind templateID] ++ tr ++ rest.2)

/-! Concrete fixtures used to instantiate the theorems. -/

/-- A manager whose calls all succeed; Install materializes the
directory tpl-dir. -/
def managerOK : Manager where
  Install := fun _ => .ok "tpl-dir"
  Update := fun _ => .ok ()
  Uninstall := fun _ => .ok ()
  Link := fun _ id => .ok ("home/templates/" ++ id)
  Unlink := fun _ => .ok ()
  TemplateLocation := fun d => "home/templates/" ++ d

/-- A URL-sourced template with no generators. -/
def sampleTemplate : Template where
  id := "sample"
  sourceType := SourceType.url
  directoryName := "tpl-dir"
  generators := []

/-- A reader that always returns the sample template. -/
def readerSample : Reader where
  Read := fun _ => .ok sampleTemplate

/-- An index with no entries whose insert succeeds. -/
def indexEmpty : Index where
  Exists := fun _ => .ok false
  FindTemplateByID := fun _ => .error (GoErr.msg "not found")
  Index := fun _ => .ok "sample"
  Update := fun _ => .ok ()
  Delete := fun _ => .ok "sample"

/-- An orchestrator over the empty index with no validators. -/
def ironmanAbsent : Ironman where
  manager := managerOK
  modelReader := readerSample
  index := indexEmpty
  home := "home"
  validators := []
  validationTemplExecute := fun _ => .ok ""

/-- An index holding the sample template. -/
def indexWithSample : Index where
  Exists := fun _ => .ok true
  FindTemplateByID := fun _ => .ok sampleTemplate
  Index := fun _ => .error (GoErr.msg "conflict")
  Update := fun _ => .ok ()
  Delete := fun _ => .ok "sample"

/-- An orchestrator that sees the sample template as installed. -/
def ironmanPresent : Ironman := { ironmanAbsent with index := indexWithSample }

/-- Like ironmanPresent but the manager removal fails. -/
def ironmanRemoveFails : Ironman :=
  { ironmanPresent with
    manager := { managerOK with Uninstall := fun _ => .error (GoErr.msg "remove failed") } }

/-- A validator that reports every template invalid. -/
def failingValidator : Validator where
  Validate := fun _ => { valid := false, payload := "invalid", err := none }

/-- An orchestrator with one always-failing validator. -/
def ironmanBadValidator : Ironman := { ironmanAbsent with validators := [failingValidator] }

/-- An orchestrator whose model read fails and whose rollback Uninstall
also fails. -/
def ironmanRollbackFails : Ironman :=
  { ironmanAbsent with
    manager := { managerOK with
      Uninstall := fun _ => .error (GoErr.msg "rollback uninstall failed") },
    modelReader := { Read := fun _ => .error (GoErr.msg "model read failed") } }

/-! Theorems settling the claims. -/

/-- Claim C8: the claim states that no source manager operation
unconditionally aborts the process; the base manager Find, Install and
Update bodies are each a single unconditional panic, so every call on
any receiver and any argument aborts. -/
theorem baseManager_operations_panic (b : manager.BaseManager)
    (templateID templateLocator : String) :
    b.Find templateID = manager.MgrOutcome.panicked "not implemented" ∧
    b.Install templateLocator = manager.MgrOutcome.panicked "not implemented" ∧
    b.Update templateID = manager.MgrOutcome.panicked "not implemented" :=
  ⟨rfl, rfl, rfl⟩

/-- Claim C9: every base manager operation taking a template ID,
namely Uninstall, IsInstalled, Link and Unlink, rejects the empty
template ID with an error and performs no filesystem action at all. -/
theorem baseManager_empty_templateID_rejected (b : manager.BaseManager) (fs : manager.MFs)
    (templatePath : String) :
    b.Uninstall fs "" = (.error (GoErr.msg "a templateID cannot be empty"), []) ∧
    b.IsInstalled fs "" = (.error (GoErr.msg "a templateID cannot be empty"), []) ∧
    b.Link fs templatePath "" = (.error (GoErr.msg "a templateID cannot be empty"), []) ∧
    b.Unlink fs "" = (.error (GoErr.msg "a templateID cannot be empty"), []) :=
  ⟨rfl, rfl, rfl, rfl⟩

/-- Claim C1: failing input for the rollback invariant.  With
materialization and model read succeeding and a registered validator
reporting the template invalid, Install returns the validation error
without running the compensating manager Uninstall and without any
index insert: the materialized directory tpl-dir is left orphaned on
disk, contradicting the claim that every post-materialization failure
triggers the compensating Uninstall. -/
theorem install_validator_failure_skips_rollback :
    Ironman.Install ironmanBadValidator "https://host/tpl-dir.git" =
      (.error (GoErr.msg ""),
        [Action.managerInstall "https://host/tpl-dir.git",
          Action.modelRead "home/templates/tpl-dir"]) ∧
    Action.managerUninstall "tpl-dir" ∉
      (Ironman.Install ironmanBadValidator "https://host/tpl-dir.git").2 ∧
    ∀ t, Action.indexInsert t ∉
      (Ironman.Install ironmanBadValidator "https://host/tpl-dir.git").2 := by
  refine ⟨rfl, by decide, ?_⟩
  intro t
  simp [Ironman.Install, ironmanBadValidator, ironmanAbsent, managerOK, readerSample,
    runValidators, failingValidator]

/-- Claim C2, counterexample: when the model read fails and the
compensating Uninstall of the rollback also fails, Install returns only
the wrapped model-read error; the compensation error is not appended to
it, it is mentioned nowhere in the returned error. -/
theorem install_compensation_error_not_appended :
    Ironman.Install ironmanRollbackFails "https://host/tpl-dir.git" =
      (.error (GoErr.wrap "failed to read template model" (GoErr.msg "model read failed")),
        [Action.managerInstall "https://host/tpl-dir.git",
          Action.modelRead "home/templates/tpl-dir",
          Action.managerUninstall "tpl-dir"]) ∧
    GoErr.containsErr
      (GoErr.wrap "failed to read template model" (GoErr.msg "model read failed"))
      (GoErr.msg "rollback uninstall failed") = false :=
  ⟨rfl, by decide⟩

/-- Claim C2 as amended: when a compensating action fails (the rollback
Uninstall during Install, the rollback Unlink during Link), its error
is silently discarded: the result of the operation does not depend on
the outcome of the compensation at all, so the primary cause is
returned unchanged and is never substituted. -/
theorem compensation_outcome_ignored (i : Ironman) (u u2 : String → Except GoErr Unit)
    (templateLocator templatePath templateID : String) :
    Ironman.Install { i with manager := { i.manager with Uninstall := u } } templateLocator =
      Ironman.Install { i with manager := { i.manager with Uninstall := u2 } } templateLocator ∧
    Ironman.Link { i with manager := { i.manager with Unlink := u } } templatePath templateID =
      Ironman.Link { i with manager := { i.manager with Unlink := u2 } } templatePath templateID :=
  ⟨rfl, rfl⟩

/-- Claim C3: Uninstall on an ID missing from the index returns a
not-installed error with no filesystem mutation; on a present ID the
manager removal of the stored directory name strictly precedes the
index deletion in the call order; and a failed removal returns that
error with the index deletion never performed. -/
theorem uninstall_contract (i : Ironman) (templateID : String) :
    ((i.index.Exists templateID = .ok false) →
      (Ironman.Uninstall i templateID).1 =
        .error (GoErr.msg ("template " ++ templateID ++ " is not installed")) ∧
      ((Ironman.Uninstall i templateID).2).all (fun a => !a.isFsMutation) = true) ∧
    (∀ templateModel, i.index.Exists templateID = .ok true →
      i.index.FindTemplateByID templateID = .ok templateModel →
      i.manager.Uninstall templateModel.directoryName = .ok () →
      (Ironman.Uninstall i templateID).2 =
        [Action.indexExists templateID, Action.indexFind templateID,
          Action.managerUninstall templateModel.directoryName,
          Action.indexDelete templateID]) ∧
    (∀ templateModel e, i.index.Exists templateID = .ok true →
      i.index.FindTemplateByID templateID = .ok templateModel →
      i.manager.Uninstall templateModel.directoryName = .error e →
      (Ironman.Uninstall i templateID).1 = .error e ∧
      Action.indexDelete templateID ∉ (Ironman.Uninstall i templateID).2) := by
  refine ⟨?_, ?_, ?_⟩
  · intro h
    simp [Ironman.Uninstall, h, Action.isFsMutation]
  · intro templateModel h1 h2 h3
    cases h4 : i.index.Delete templateID <;>
      simp [Ironman.Uninstall, h1, h2, h3, h4]
  · intro templateModel e h1 h2 h3
    simp [Ironman.Uninstall, h1, h2, h3]

/-- Witness instantiating the Uninstall contract on concrete
orchestrators: an empty index, a populated index with a succeeding
removal, and a populated index with a failing removal. -/
theorem uninstall_contract_witness :
    ((Ironman.Uninstall ironmanAbsent "sample").1 =
        .error (GoErr.msg ("template " ++ "sample" ++ " is not installed")) ∧
      ((Ironman.Uninstall ironmanAbsent "sample").2).all (fun a => !a.isFsMutation) = true) ∧
    (Ironman.Uninstall ironmanPresent "sample").2 =
      [Action.indexExists "sample", Action.indexFind "sample",
        Action.managerUninstall sampleTemplate.directoryName, Action.indexDelete "sample"] ∧
    ((Ironman.Uninstall ironmanRemoveFails "sample").1 = .error (GoErr.msg "remove failed") ∧
      Action.indexDelete "sample" ∉ (Ironman.Uninstall ironmanRemoveFails "sample").2) :=
  ⟨(uninstall_contract ironmanAbsent "sample").1 rfl,
    (uninstall_contract ironmanPresent "sample").2.1 sampleTemplate rfl rfl rfl,
    (uninstall_contract ironmanRemoveFails "sample").2.2 sampleTemplate
      (GoErr.msg "remove failed") rfl rfl rfl⟩

/-- Claim C7: on every path of Link, the only template ever handed to
the index insert carries the caller-supplied ID and the Link source
type, whatever the metadata file declared; and a successful Link did
hand such a template to the index insert. -/
theorem link_forces_identity (i : Ironman) (templatePath templateID : String) :
    (∀ t, Action.indexInsert t ∈ (Ironman.Link i templatePath templateID).2 →
      t.id = templateID ∧ t.sourceType = SourceType.link) ∧
    ((Ironman.Link i templatePath templateID).1 = .ok () →
      ∃ t, Action.indexInsert t ∈ (Ironman.Link i templatePath templateID).2 ∧
        t.id = templateID ∧ t.sourceType = SourceType.link) := by
  constructor
  · intro t ht
    cases h1 : i.manager.Link templatePath templateID with
    | error e => simp [Ironman.Link, h1] at ht
    | ok linkPath =>
      cases h2 : i.modelReader.Read linkPath with
      | error e => simp [Ironman.Link, h1, h2] at ht
      | ok templateModel =>
        cases h3 : i.index.Index
            { templateModel with id := templateID, sourceType := SourceType.link } with
        | error e =>
          simp [Ironman.Link, h1, h2, h3] at ht
          subst ht
          exact ⟨rfl, rfl⟩
        | ok newID =>
          simp [Ironman.Link, h1, h2, h3] at ht
          subst ht
          exact ⟨rfl, rfl⟩
  · intro hok
    cases h1 : i.manager.Link templatePath templateID with
    | error e => simp [Ironman.Link, h1] at hok
    | ok linkPath =>
      cases h2 : i.modelReader.Read linkPath with
      | error e => simp [Ironman.Link, h1, h2] at hok
      | ok templateModel =>
        cases h3 : i.index.Index
            { templateModel with id := templateID, sourceType := SourceType.link } with
        | error e => simp [Ironman.Link, h1, h2, h3] at hok
        | ok newID =>
          refine ⟨{ templateModel with id := templateID, sourceType := SourceType.link },
            ?_, rfl, rfl⟩
          simp [Ironman.Link, h1, h2, h3]

/-- Witness instantiating the Link identity theorem on a concrete
orchestrator whose Link succeeds under the caller ID custom while the
metadata declares the ID sample and the URL source type. -/
theorem link_forces_identity_witness :
    (({ sampleTemplate with id := "custom", sourceType := SourceType.link } : Template).id =
        "custom" ∧
      ({ sampleTemplate with id := "custom", sourceType := SourceType.link } :
        Template).sourceType = SourceType.link) ∧
    ∃ t, Action.indexInsert t ∈ (Ironman.Link ironmanAbsent "some/path" "custom").2 ∧
      t.id = "custom" ∧ t.sourceType = SourceType.link :=
  ⟨(link_forces_identity ironmanAbsent "some/path" "custom").1
      { sampleTemplate with id := "custom", sourceType := SourceType.link } (by decide),
    (link_forces_identity ironmanAbsent "some/path" "custom").2 rfl⟩

/-- A Link-sourced template as stored in the index. -/
def linkedTemplate : Template where
  id := "meta"
  sourceType := SourceType.link
  directoryName := "linked-dir"
  generators := []

/-- An index holding the linked template. -/
def indexLinked : Index where
  Exists := fun _ => .ok true
  FindTemplateByID := fun _ => .ok linkedTemplate
  Index := fun _ => .ok "custom"
  Update := fun _ => .ok ()
  Delete := fun _ => .ok "custom"

/-- An orchestrator that sees the linked template as installed. -/
def ironmanLinked : Ironman := { ironmanAbsent with index := indexLinked }

/-- A filesystem oracle whose calls all succeed, every stat finds its
path, every directory listing is empty. -/
def fsSample : Fs where
  filepathAbs := fun p => .ok ("/abs/" ++ p)
  pathDir := fun _ => "/abs"
  pathBase := fun p => p
  pathJoin := fun parts => String.intercalate "/" parts
  stat := fun _ => StatRes.found
  mkdir := fun _ => MkdirRes.ok
  readDirNames := fun _ => .ok []
  generatorGenerate := fun _ _ _ => .ok ()

/-- Claim C6: Update never performs an index mutation on any path; on
an existing template it performs exactly the existence check, the
lookup and the manager Update of the stored directory name; and the
metadata re-read with the index update for a Link-sourced template does
happen during Generate. -/
theorem update_index_frame (i : Ironman) (fs : Fs)
    (templateID generatorID generationPath : String) (values : Values) (force : Bool) :
    ((Ironman.Update i templateID).2).all (fun a => !a.isIndexMutation) = true ∧
    (∀ templateModel, i.index.Exists templateID = .ok true →
      i.index.FindTemplateByID templateID = .ok templateModel →
      (Ironman.Update i templateID).2 =
        [Action.indexExists templateID, Action.indexFind templateID,
          Action.managerUpdate templateModel.directoryName]) ∧
    (∀ found fresh, i.index.Exists templateID = .ok true →
      i.index.FindTemplateByID templateID = .ok found →
      found.sourceType = SourceType.link →
      i.modelReader.Read (i.manager.TemplateLocation found.directoryName) = .ok fresh →
      i.index.Update { fresh with id := templateID, sourceType := SourceType.link } = .ok () →
      Action.indexUpdate { fresh with id := templateID, sourceType := SourceType.link } ∈
        (Ironman.Generate i fs templateID generatorID generationPath values force).2) := by
  refine ⟨?_, ?_, ?_⟩
  · cases h1 : i.index.Exists templateID with
    | error e => simp [Ironman.Update, h1, Action.isIndexMutation]
    | ok b =>
      cases b with
      | false => simp [Ironman.Update, h1, Action.isIndexMutation]
      | true =>
        cases h2 : i.index.FindTemplateByID templateID with
        | error e => simp [Ironman.Update, h1, h2, Action.isIndexMutation]
        | ok templateModel =>
          cases h3 : i.manager.Update templateModel.directoryName <;>
            simp [Ironman.Update, h1, h2, h3, Action.isIndexMutation]
  · intro templateModel h1 h2
    cases h3 : i.manager.Update templateModel.directoryName <;>
      simp [Ironman.Update, h1, h2, h3]
  · intro found fresh h1 h2 h3 h4 h5
    simp [Ironman.Generate, h1, h2, Ironman.linkRefresh, h3, h4, h5]

/-- Witness instantiating the Update frame theorem on the linked
template: the concrete Update trace, and the index update performed by
Generate for the Link-sourced template. -/
theorem update_index_frame_witness :
    (Ironman.Update ironmanLinked "custom").2 =
      [Action.indexExists "custom", Action.indexFind "custom",
        Action.managerUpdate linkedTemplate.directoryName] ∧
    Action.indexUpdate { sampleTemplate with id := "custom", sourceType := SourceType.link } ∈
      (Ironman.Generate ironmanLinked fsSample "custom" "gen" "some/dir" [] false).2 :=
  ⟨(update_index_frame ironmanLinked fsSample "custom" "gen" "some/dir" [] false).2.1
      linkedTemplate rfl rfl,
    (update_index_frame ironmanLinked fsSample "custom" "gen" "some/dir" [] false).2.2
      linkedTemplate sampleTemplate rfl rfl rfl rfl rfl⟩

/-- A File-type generator writing into the relative path rel. -/
def fileGen : Generator where
  id := "gen"
  ttype := GeneratorType.file
  directoryName := "gen-dir"
  fileTypeOptions := { fileGenerationRelativePath := "rel" }

/-- A URL-sourced template holding the File-type generator. -/
def fileTemplate : Template := { sampleTemplate with generators := [fileGen] }

/-- An index holding the file template. -/
def indexFile : Index := { indexWithSample with FindTemplateByID := fun _ => .ok fileTemplate }

/-- An orchestrator that sees the file template as installed. -/
def ironmanFile : Ironman := { ironmanAbsent with index := indexFile }

/-- A filesystem oracle on which every stat reports a missing path. -/
def fsParentMissing : Fs :=
  { fsSample with stat := fun _ => StatRes.notExist (GoErr.msg "enoent") }

/-- Claim C4: for a File-type generator, a missing parent directory of
the target fails before any filesystem mutation; otherwise the conflict
check stats exactly the join of the parent, the FileGenerationRelativePath
and the base name of the target, and an existing file without force
fails, again before any filesystem mutation. -/
theorem generate_file_preconditions (i : Ironman) (fs : Fs)
    (templateID generatorID generationPath absPath : String) (values : Values) (force : Bool)
    (templateModel : Template) (g : Generator)
    (h1 : i.index.Exists templateID = .ok true)
    (h2 : i.index.FindTemplateByID templateID = .ok templateModel)
    (h3 : templateModel.sourceType = SourceType.url)
    (h4 : templateModel.generator generatorID = some g)
    (h5 : g.ttype = GeneratorType.file)
    (h6 : fs.filepathAbs generationPath = .ok absPath) :
    (∀ e0, fs.stat (fs.pathDir absPath) = .notExist e0 →
      Ironman.Generate i fs templateID generatorID generationPath values force =
        (.error (GoErr.msg ("directory " ++ fs.pathDir generationPath ++ " does not exists")),
          [Action.indexExists templateID, Action.indexFind templateID,
            Action.stat (fs.pathDir absPath)]) ∧
      ((Ironman.Generate i fs templateID generatorID generationPath values force).2).all
        (fun a => !a.isFsMutation) = true) ∧
    (fs.stat (fs.pathDir absPath) = StatRes.found →
      fs.stat (fs.pathJoin [fs.pathDir absPath, g.fileTypeOptions.fileGenerationRelativePath,
        fs.pathBase absPath]) = StatRes.found →
      force = false →
      Ironman.Generate i fs templateID generatorID generationPath values force =
        (.error (GoErr.msg ("file already exists " ++
            fs.pathJoin [fs.pathDir absPath, g.fileTypeOptions.fileGenerationRelativePath,
              fs.pathBase absPath] ++ " ")),
          [Action.indexExists templateID, Action.indexFind templateID,
            Action.stat (fs.pathDir absPath),
            Action.stat (fs.pathJoin [fs.pathDir absPath,
              g.fileTypeOptions.fileGenerationRelativePath, fs.pathBase absPath])]) ∧
      ((Ironman.Generate i fs templateID generatorID generationPath values force).2).all
        (fun a => !a.isFsMutation) = true) := by
  constructor
  · intro e0 hstat
    simp [Ironman.Generate, h1, h2, Ironman.linkRefresh, h3, Ironman.generateTail, h4, h6, h5,
      Ironman.generateFile, hstat, Action.isFsMutation]
  · intro hbase hfile hforce
    subst hforce
    simp [Ironman.Generate, h1, h2, Ironman.linkRefresh, h3, Ironman.generateTail, h4, h6, h5,
      Ironman.generateFile, hbase, hfile, Action.isFsMutation]

/-- Witness instantiating the File-type preconditions: a missing
parent directory on fsParentMissing, and an existing output file
without force on fsSample. -/
theorem generate_file_preconditions_witness :
    (Ironman.Generate ironmanFile fsParentMissing "sample" "gen" "dir/target" [] false =
      (.error (GoErr.msg ("directory " ++ fsParentMissing.pathDir "dir/target" ++
          " does not exists")),
        [Action.indexExists "sample", Action.indexFind "sample",
          Action.stat (fsParentMissing.pathDir "/abs/dir/target")]) ∧
      ((Ironman.Generate ironmanFile fsParentMissing "sample" "gen" "dir/target" [] false).2).all
        (fun a => !a.isFsMutation) = true) ∧
    (Ironman.Generate ironmanFile fsSample "sample" "gen" "dir/target" [] false =
      (.error (GoErr.msg ("file already exists " ++
          fsSample.pathJoin [fsSample.pathDir "/abs/dir/target",
            fileGen.fileTypeOptions.fileGenerationRelativePath,
            fsSample.pathBase "/abs/dir/target"] ++ " ")),
        [Action.indexExists "sample", Action.indexFind "sample",
          Action.stat (fsSample.pathDir "/abs/dir/target"),
          Action.stat (fsSample.pathJoin [fsSample.pathDir "/abs/dir/target",
            fileGen.fileTypeOptions.fileGenerationRelativePath,
            fsSample.pathBase "/abs/dir/target"])]) ∧
      ((Ironman.Generate ironmanFile fsSample "sample" "gen" "dir/target" [] false).2).all
        (fun a => !a.isFsMutation) = true) :=
  ⟨(generate_file_preconditions ironmanFile fsParentMissing "sample" "gen" "dir/target"
      "/abs/dir/target" [] false fileTemplate fileGen rfl rfl rfl rfl rfl rfl).1
      (GoErr.msg "enoent") rfl,
    (generate_file_preconditions ironmanFile fsSample "sample" "gen" "dir/target"
      "/abs/dir/target" [] false fileTemplate fileGen rfl rfl rfl rfl rfl rfl).2
      rfl rfl rfl⟩

/-- A Directory-type generator. -/
def dirGen : Generator where
  id := "gen"
  ttype := GeneratorType.directory
  directoryName := "gen-dir"
  fileTypeOptions := { fileGenerationRelativePath := "" }

/-- A URL-sourced template holding the Directory-type generator. -/
def dirTemplate : Template := { sampleTemplate with generators := [dirGen] }

/-- An index holding the directory template. -/
def indexDir : Index := { indexWithSample with FindTemplateByID := fun _ => .ok dirTemplate }

/-- An orchestrator that sees the directory template as installed. -/
def ironmanDir : Ironman := { ironmanAbsent with index := indexDir }

/-- A filesystem oracle on which the target directory already exists
and is not empty. -/
def fsDirConflict : Fs :=
  { fsSample with
    mkdir := fun _ => MkdirRes.alreadyExists (GoErr.msg "eexist"),
    readDirNames := fun _ => .ok ["stuff"] }

/-- A filesystem oracle on which the directory creation fails with an
error that is neither a permission nor an already-exists error. -/
def fsDirOther : Fs :=
  { fsSample with mkdir := fun _ => MkdirRes.otherErr (GoErr.msg "enoent parent") }

/-- On every outcome of the creation call, the Directory branch
performs the mkdir of the target. -/
theorem mkdir_mem_generateDirectory (i : Ironman) (fs : Fs) (absGenerationPath : String)
    (values : Values) (force : Bool) (templateModel : Template) (g : Generator) :
    Action.mkdir absGenerationPath ∈
      (Ironman.generateDirectory i fs absGenerationPath values force templateModel g).2 := by
  rcases h : fs.mkdir absGenerationPath with _ | e | e | e
  · simp [Ironman.generateDirectory, h]
  · simp [Ironman.generateDirectory, h]
  · cases force with
    | false =>
      rcases h2 : fs.readDirNames absGenerationPath with e2 | names
      · simp [Ironman.generateDirectory, h, isDirEmpty, h2]
      · cases names <;> simp [Ironman.generateDirectory, h, isDirEmpty, h2]
    | true => simp [Ironman.generateDirectory, h]
  · simp [Ironman.generateDirectory, h]

/-- Claim C5: for a Directory-type generator, Generate performs the
creation of the target directory on every path; when the directory
already exists and the listing and the walk succeed, the generation
succeeds exactly when force is set or the directory is empty, and in
the remaining case it fails with the not-empty conflict without having
performed any output write. -/
theorem generate_directory_conflict (i : Ironman) (fs : Fs)
    (templateID generatorID generationPath absPath : String) (values : Values) (force : Bool)
    (templateModel : Template) (g : Generator)
    (h1 : i.index.Exists templateID = .ok true)
    (h2 : i.index.FindTemplateByID templateID = .ok templateModel)
    (h3 : templateModel.sourceType = SourceType.url)
    (h4 : templateModel.generator generatorID = some g)
    (h5 : g.ttype = GeneratorType.directory)
    (h6 : fs.filepathAbs generationPath = .ok absPath) :
    Action.mkdir absPath ∈
      (Ironman.Generate i fs templateID generatorID generationPath values force).2 ∧
    (∀ e0 names, fs.mkdir absPath = MkdirRes.alreadyExists e0 →
      fs.readDirNames absPath = .ok names →
      fs.generatorGenerate (fs.pathJoin [i.home, templatesDirectory,
        templateModel.directoryName, generatorsPath, g.directoryName]) absPath values = .ok () →
      (((Ironman.Generate i fs templateID generatorID generationPath values force).1 =
          .ok ()) ↔ (force = true ∨ names = [])) ∧
      (force = false → names ≠ [] →
        Ironman.Generate i fs templateID generatorID generationPath values force =
          (.error (GoErr.msg ("Generation path is not empty " ++ absPath)),
            [Action.indexExists templateID, Action.indexFind templateID,
              Action.mkdir absPath, Action.readDir absPath]) ∧
        ((Ironman.Generate i fs templateID generatorID generationPath values force).2).all
          (fun a => !a.writesOutput) = true)) := by
  constructor
  · simp [Ironman.Generate, h1, h2, Ironman.linkRefresh, h3, Ironman.generateTail, h4, h6, h5,
      mkdir_mem_generateDirectory]
  · intro e0 names hmk hrd hgen
    constructor
    · cases force with
      | false =>
        cases names with
        | nil =>
          simp [Ironman.Generate, h1, h2, Ironman.linkRefresh, h3, Ironman.generateTail, h4,
            h6, h5, Ironman.generateDirectory, hmk, isDirEmpty, hrd, Ironman.runGenerator, hgen]
        | cons n ns =>
          simp [Ironman.Generate, h1, h2, Ironman.linkRefresh, h3, Ironman.generateTail, h4,
            h6, h5, Ironman.generateDirectory, hmk, isDirEmpty, hrd]
      | true =>
        simp [Ironman.Generate, h1, h2, Ironman.linkRefresh, h3, Ironman.generateTail, h4,
          h6, h5, Ironman.generateDirectory, hmk, Ironman.runGenerator, hgen]
    · intro hforce hne
      subst hforce
      cases names with
      | nil => exact absurd rfl hne
      | cons n ns =>
        simp [Ironman.Generate, h1, h2, Ironman.linkRefresh, h3, Ironman.generateTail, h4,
          h6, h5, Ironman.generateDirectory, hmk, isDirEmpty, hrd, Action.writesOutput]

/-- Witness instantiating the Directory conflict policy on an existing
non-empty target without force: the creation call is performed, the
iff reduces to failure, and the conflict error is returned with no
output write. -/
theorem generate_directory_conflict_witness :
    Action.mkdir "/abs/some/dir" ∈
      (Ironman.Generate ironmanDir fsDirConflict "sample" "gen" "some/dir" [] false).2 ∧
    (((Ironman.Generate ironmanDir fsDirConflict "sample" "gen" "some/dir" [] false).1 =
        .ok ()) ↔ (false = true ∨ (["stuff"] : List String) = [])) ∧
    (Ironman.Generate ironmanDir fsDirConflict "sample" "gen" "some/dir" [] false =
      (.error (GoErr.msg ("Generation path is not empty " ++ "/abs/some/dir")),
        [Action.indexExists "sample", Action.indexFind "sample",
          Action.mkdir "/abs/some/dir", Action.readDir "/abs/some/dir"]) ∧
      ((Ironman.Generate ironmanDir fsDirConflict "sample" "gen" "some/dir" [] false).2).all
        (fun a => !a.writesOutput) = true) :=
  ⟨(generate_directory_conflict ironmanDir fsDirConflict "sample" "gen" "some/dir"
      "/abs/some/dir" [] false dirTemplate dirGen rfl rfl rfl rfl rfl rfl).1,
    ((generate_directory_conflict ironmanDir fsDirConflict "sample" "gen" "some/dir"
      "/abs/some/dir" [] false dirTemplate dirGen rfl rfl rfl rfl rfl rfl).2
      (GoErr.msg "eexist") ["stuff"] rfl rfl rfl).1,
    ((generate_directory_conflict ironmanDir fsDirConflict "sample" "gen" "some/dir"
      "/abs/some/dir" [] false dirTemplate dirGen rfl rfl rfl rfl rfl rfl).2
      (GoErr.msg "eexist") ["stuff"] rfl rfl rfl).2 rfl (by decide)⟩

/-- Claim C10: in the Directory branch, a creation error that is
neither a permission nor an already-exists error is not returned:
Generate proceeds to the rendering walk, its outcome is exactly the
outcome of the walk, and the walk call is performed right after the
failed creation. -/
theorem generate_directory_mkdir_error_ignored (i : Ironman) (fs : Fs)
    (templateID generatorID generationPath absPath : String) (values : Values) (force : Bool)
    (templateModel : Template) (g : Generator) (e : GoErr)
    (h1 : i.index.Exists templateID = .ok true)
    (h2 : i.index.FindTemplateByID templateID = .ok templateModel)
    (h3 : templateModel.sourceType = SourceType.url)
    (h4 : templateModel.generator generatorID = some g)
    (h5 : g.ttype = GeneratorType.directory)
    (h6 : fs.filepathAbs generationPath = .ok absPath)
    (hmk : fs.mkdir absPath = MkdirRes.otherErr e) :
    Ironman.Generate i fs templateID generatorID generationPath values force =
      ((i.runGenerator fs templateModel g absPath values).1,
        [Action.indexExists templateID, Action.indexFind templateID, Action.mkdir absPath,
          Action.generatorWrite (fs.pathJoin [i.home, templatesDirectory,
            templateModel.directoryName, generatorsPath, g.directoryName]) absPath]) := by
  cases hg : fs.generatorGenerate (fs.pathJoin [i.home, templatesDirectory,
      templateModel.directoryName, generatorsPath, g.directoryName]) absPath values <;>
    simp [Ironman.Generate, h1, h2, Ironman.linkRefresh, h3, Ironman.generateTail, h4, h6,
      h5, Ironman.generateDirectory, hmk, Ironman.runGenerator, hg]

/-- Witness instantiating the ignored creation error: on a filesystem
whose mkdir fails with a missing-parent style error, Generate proceeds
to the rendering walk and returns its successful outcome. -/
theorem generate_directory_mkdir_error_ignored_witness :
    Ironman.Generate ironmanDir fsDirOther "sample" "gen" "some/dir" [] false =
      ((Ironman.runGenerator ironmanDir fsDirOther dirTemplate dirGen "/abs/some/dir" []).1,
        [Action.indexExists "sample", Action.indexFind "sample", Action.mkdir "/abs/some/dir",
          Action.generatorWrite (fsDirOther.pathJoin [ironmanDir.home, templatesDirectory,
            dirTemplate.directoryName, generatorsPath, dirGen.directoryName]) "/abs/some/dir"]) :=
  generate_directory_mkdir_error_ignored ironmanDir fsDirOther "sample" "gen" "some/dir"
    "/abs/some/dir" [] false dirTemplate dirGen (GoErr.msg "enoent parent")
    rfl rfl rfl rfl rfl rfl rfl

end IronmanProof
